import Mathlib

/-!
Verification of the Offertly reconciliation-and-metering core (`app.py`).

The Python source is shallowly embedded: the SQLite `users` and `offers`
tables become Lean lists of records, SQL statements become list operations,
and each handler becomes a pure function of its inputs (provider responses,
query parameters and secrets are passed in as explicit arguments).  Python
string idioms (`.lower()`, `.strip()`, truthiness of `None`/`""`) are
modelled by explicit character-list functions so that every definition
evaluates inside the kernel.
-/

namespace Offertly

/-- Python's `str.lower()`: character-wise lowercasing. -/
def py_lower (s : String) : String := String.mk (s.data.map Char.toLower)

/-- Python's `str.strip()`: drop whitespace from both ends. -/
def py_strip (s : String) : String :=
  String.mk (((s.data.dropWhile Char.isWhitespace).reverse.dropWhile Char.isWhitespace).reverse)

/-- Python truthiness of an optional string: `None` and `""` are falsy.
`truthy o` is `none` exactly when `if not o:` holds in the source. -/
def truthy (o : Option String) : Option String :=
  match o with
  | none => none
  | some s => if s = "" then none else some s

/-- Row of the `users` table (app.py `init_db`).  The credential hash is
opaque to the reconciliation core and is omitted from the embedding. -/
structure User where
  id : Nat
  email : String
  created_at : Nat
  stripe_customer_id : Option String
  stripe_subscription_id : Option String
  stripe_subscription_status : Option String
  plan : Option String
deriving DecidableEq, Repr

/-- Row of the `offers` table (app.py `init_db`): the usage ledger. -/
structure Offer where
  user_id : Nat
  offer_id : String
  created_at : Nat
  job_type : String
  customer_name : String
  location : String
  total_price : Nat
  md : String
deriving DecidableEq, Repr

/-- One entry of the `PLANS` catalog (the fields the core reads). -/
structure Plan where
  label : String
  limit_per_month : Nat
  stripe_price_id_secret : String
deriving DecidableEq, Repr

/-- The `PLANS` dictionary from app.py, in declaration order. -/
def PLANS : List (String × Plan) :=
  [ ("starter", ⟨"Starter", 50, "STRIPE_PRICE_ID_STARTER"⟩),
    ("pro", ⟨"Pro (populär)", 300, "STRIPE_PRICE_ID_PRO"⟩),
    ("team", ⟨"Team", 1000, "STRIPE_PRICE_ID_TEAM"⟩) ]

/-- The subscription-status enumeration declared by the data model
(provider-canonical Stripe statuses, stored lowercased by every writer). -/
def STATUS_VALUES : List String :=
  ["active", "trialing", "past_due", "canceled", "unpaid", "incomplete", "incomplete_expired"]

/-- SQL `COALESCE(x, fallback)`: first non-NULL argument. -/
def coalesce (x fallback : Option String) : Option String :=
  match x with
  | some v => some v
  | none => fallback

/-- The `SET` clause of `update_user_subscription`, applied to one row:
each billing field is `COALESCE`d with its prior value. -/
def apply_subscription_update (u : User)
    (customer_id subscription_id status plan : Option String) : User :=
  { u with
    stripe_customer_id := coalesce customer_id u.stripe_customer_id,
    stripe_subscription_id := coalesce subscription_id u.stripe_subscription_id,
    stripe_subscription_status := coalesce status u.stripe_subscription_status,
    plan := coalesce plan u.plan }

/-- Model of `update_user_subscription` (app.py 148-170): `UPDATE users SET ...
COALESCE ... WHERE id = ?` over the whole table. -/
def update_user_subscription (users : List User) (user_id : Nat)
    (customer_id subscription_id status plan : Option String) : List User :=
  users.map (fun u =>
    if u.id == user_id then
      apply_subscription_update u customer_id subscription_id status plan
    else u)

/-- Model of `insert_offer` (app.py 173-192): plain SQL INSERT, appends one ledger row. -/
def insert_offer (offers : List Offer) (o : Offer) : List Offer := offers ++ [o]

/-- Email normalization `email.lower().strip()` used by `get_user_by_email`
and `create_user`. -/
def normalize_email (email : String) : String := py_strip (py_lower email)

/-- Model of `get_user_by_email` (app.py 113-119): `SELECT * FROM users WHERE email = ?`
with the normalized email; first matching row. -/
def get_user_by_email (users : List User) (email : String) : Option User :=
  users.find? (fun u => u.email == normalize_email email)

/-- Days since the Unix epoch of a civil date (valid for years ≥ 1970);
models `datetime(y, m, d, tzinfo=timezone.utc).timestamp() / 86400`. -/
def daysFromCivil (y m d : Nat) : Nat :=
  let y' := y - (if m ≤ 2 then 1 else 0)
  let era := y' / 400
  let yoe := y' % 400
  let mp := if m ≤ 2 then m + 9 else m - 3
  let doy := (153 * mp + 2) / 5 + d - 1
  let doe := yoe * 365 + yoe / 4 - yoe / 100 + doy
  era * 146097 + doe - 719468

/-- Civil (year, month) of a day count since the Unix epoch; models
`datetime.fromtimestamp(ts, timezone.utc)`'s `.year` and `.month`. -/
def civilYM (z : Nat) : Nat × Nat :=
  let z' := z + 719468
  let era := z' / 146097
  let doe := z' % 146097
  let yoe := (doe - doe / 1460 + doe / 36524 - doe / 146096) / 365
  let y := era * 400 + yoe
  let doy := doe - (365 * yoe + yoe / 4 - yoe / 100)
  let mp := (5 * doy + 2) / 153
  let m := if mp < 10 then mp + 3 else mp - 9
  (if m ≤ 2 then y + 1 else y, m)

/-- Model of `int(datetime(now.year, now.month, 1, tzinfo=timezone.utc).timestamp())`
as computed by `count_offers_current_month` from the current UTC time. -/
def month_start_ts (now : Nat) : Nat :=
  let ym := civilYM (now / 86400)
  daysFromCivil ym.1 ym.2 1 * 86400

/-- Model of `count_offers_current_month` (app.py 195-206): `SELECT COUNT(*) FROM
offers WHERE user_id = ? AND created_at >= ?` with the month-start bound. -/
def count_offers_current_month (offers : List Offer) (user_id : Nat) (now : Nat) : Nat :=
  let start_ts := month_start_ts now
  (offers.filter (fun o => o.user_id == user_id && decide (start_ts ≤ o.created_at))).length

/-- Model of `has_active_subscription` (app.py 269-271): lowercased status is
`active` or `trialing`; a NULL status reads as `""`. -/
def has_active_subscription (u : User) : Bool :=
  let status := py_lower ((u.stripe_subscription_status).getD "")
  status == "active" || status == "trialing"

/-- The plan-limit lookup of `quota_bar` (app.py 817-826):
`(user.get("plan") or "starter").lower()`, falling back to `starter` for
unknown keys, then the catalog's `limit_per_month`. -/
def plan_limit (plan : Option String) : Nat :=
  let k0 := py_lower ((truthy plan).getD "starter")
  let k := if (PLANS.lookup k0).isSome then k0 else "starter"
  ((PLANS.lookup k).map Plan.limit_per_month).getD 50

/-- The metered action of `generator_ui` (app.py 872-923) run to completion
in isolation: read the current-month count, reject when `used >= limit`
(the quota error, no ledger change), otherwise append exactly one ledger
row.  The `Bool` is `true` on success. -/
def generator_submit (offers : List Offer) (user_id : Nat) (plan : Option String)
    (now : Nat) (o : Offer) : Bool × List Offer :=
  let limit := plan_limit plan
  let used := count_offers_current_month offers user_id now
  if limit ≤ used then (false, offers)
  else (true, insert_offer offers o)

/-- Progress of one in-flight `generator_ui` request.  The count is read by
`quota_bar` when the page renders (`submitting`), the `used >= limit` check
runs in the button handler, and the `insert_offer` call only happens after
offer-text generation (`generating`). -/
inductive ReqPhase
  | rendering
  | submitting (used : Nat)
  | generating (used : Nat)
  | rejected (used : Nat)
  | inserted (used : Nat)
deriving DecidableEq, Repr

/-- Shared ledger plus the per-request phases of concurrently running
`generator_ui` requests for one user. -/
structure GenSystem where
  offers : List Offer
  reqs : List ReqPhase
deriving DecidableEq, Repr

/-- One scheduler step: request `i` performs its next action against the
shared ledger.  Each step is individually atomic (one SQLite statement),
but nothing serializes the read-count / compare / insert sequence. -/
def gen_step (user_id limit now : Nat) (mk : Nat → Offer)
    (s : GenSystem) (i : Nat) : GenSystem :=
  match s.reqs[i]? with
  | none => s
  | some ph =>
    match ph with
    | .rendering =>
        { s with reqs := s.reqs.set i (.submitting (count_offers_current_month s.offers user_id now)) }
    | .submitting used =>
        if limit ≤ used then { s with reqs := s.reqs.set i (.rejected used) }
        else { s with reqs := s.reqs.set i (.generating used) }
    | .generating used =>
        { offers := insert_offer s.offers (mk i), reqs := s.reqs.set i (.inserted used) }
    | .rejected _ => s
    | .inserted _ => s

/-- Run a whole interleaving schedule of request indices. -/
def gen_run (user_id limit now : Nat) (mk : Nat → Offer)
    (s : GenSystem) (sched : List Nat) : GenSystem :=
  sched.foldl (gen_step user_id limit now mk) s

/-- The fields `handle_stripe_success_callback` reads from the canonical
checkout-session object returned by the provider. -/
structure CheckoutSession where
  customer : Option String
  subscription : Option String
  plan_key : Option String
deriving DecidableEq, Repr

/-- Model of `handle_stripe_success_callback` (app.py 329-362).  Inputs: the users
table, the signed-in user's id, whether Stripe is configured, the
`success`/`session_id` query parameters, whether the provider calls
succeed, the canonical session object and the canonical subscription
status.  Returns the users table after the call. -/
def handle_stripe_success_callback (users : List User) (user_id : Nat)
    (stripe_ok : Bool) (success session_id : Option String)
    (provider_ok : Bool) (sess : CheckoutSession) (sub_status : Option String) :
    List User :=
  if ¬ stripe_ok then users
  else if truthy success = none ∨ truthy session_id = none then users
  else if ¬ provider_ok then users
  else
    let customer_id := truthy sess.customer
    let subscription_id := truthy sess.subscription
    let status := match subscription_id with
      | some _ => some (py_lower (sub_status.getD ""))
      | none => none
    update_user_subscription users user_id customer_id subscription_id status sess.plan_key

/-- Model of `sync_subscription_from_stripe` (app.py 365-376).  `fetch_status sid`
is the provider call: `none` models `stripe.Subscription.retrieve` raising
(the bare `except: return`), `some s` a canonical subscription whose
`status` field is `s`. -/
def sync_subscription_from_stripe (users : List User) (u : User)
    (stripe_ok : Bool) (fetch_status : String → Option (Option String)) : List User :=
  if ¬ stripe_ok then users
  else
    match truthy u.stripe_subscription_id with
    | none => users
    | some sub_id =>
      match fetch_status sub_id with
      | none => users
      | some s =>
        update_user_subscription users u.id none none (some (py_lower (s.getD ""))) none

/-- Model of `constant_time_equals` (app.py 382-383): `hmac.compare_digest` agrees
with string equality on the result. -/
def constant_time_equals (a b : String) : Bool := a == b

/-- Model of `verify_webhook_gate` (app.py 386-392): an unset or empty
`APP_WEBHOOK_TOKEN` refuses every token; otherwise constant-time compare. -/
def verify_webhook_gate (token : String) (expected : Option String) : Bool :=
  match truthy expected with
  | none => false
  | some e => constant_time_equals token e

/-- Outcome of `webhook_handler`: which `st.error`/`st.stop` branch fired,
or a successful sync. -/
inductive WebhookOutcome
  | not_configured
  | gate_refused
  | missing_subscription
  | user_not_found
  | synced (email status : String) (plan_key : Option String)
deriving DecidableEq, Repr

/-- Resolution of the subscription reference in `webhook_handler`
(app.py 411-417): start from the `sub` query parameter and, when a
`session_id` is supplied, prefer `sess.get("subscription")`. -/
def webhook_subscription_id (sub_param session_param : String)
    (session_subscription : Option String) : String :=
  if session_param ≠ "" then (truthy session_subscription).getD sub_param
  else sub_param

/-- Model of `webhook_handler` (app.py 395-462).  Provider responses are passed in
resolved: `session_subscription` is `sess.get("subscription")` for the
given `session_id`, `sub_status`/`sub_customer` come from the canonical
subscription, `customer_email` from the canonical customer, `sub_price_id`
from the first subscription item, and `price_of` is `get_price_id`
(the configured price reference per plan key). -/
def webhook_handler (users : List User) (stripe_ok : Bool)
    (token : String) (expected_token : Option String)
    (sub_param session_param : String)
    (session_subscription sub_status sub_customer customer_email sub_price_id : Option String)
    (price_of : String → Option String) : WebhookOutcome × List User :=
  if ¬ stripe_ok then (.not_configured, users)
  else if ¬ verify_webhook_gate token expected_token then (.gate_refused, users)
  else
    let subscription_id := webhook_subscription_id sub_param session_param session_subscription
    if subscription_id = "" then (.missing_subscription, users)
    else
      let status := py_lower (sub_status.getD "")
      let email := normalize_email (customer_email.getD "")
      let plan_key := match truthy sub_price_id with
        | none => none
        | some pid => (PLANS.find? (fun p => price_of p.1 == some pid)).map (fun p => p.1)
      let u := if email ≠ "" then get_user_by_email users email else none
      match u with
      | none => (.user_not_found, users)
      | some target =>
        (.synced email status plan_key,
         update_user_subscription users target.id
           (truthy sub_customer) (some subscription_id) (some status) plan_key)

/-- The `d` dictionary assembled by `generator_ui` (app.py 892-907). -/
structure OfferData where
  company : String
  contact : String
  date : String
  customer : String
  location : String
  job_type : String
  size : String
  material : String
  comment : String
  offer_id : String
  price_work : Nat
  price_material : Nat
  price_other : Nat
  price_total : Nat
deriving DecidableEq, Repr

/-- Model of `generator_ui`'s construction of `d`: fields are `.strip()`ed and
`price_total` is `int(price_work + price_material + price_other)`
(app.py 868 and 892-907). -/
def mk_offer_data (company contact date customer location job_type size material comment offer_id : String)
    (price_work price_material price_other : Nat) : OfferData :=
  { company := py_strip company, contact := py_strip contact, date := date,
    customer := py_strip customer, location := py_strip location,
    job_type := py_strip job_type, size := py_strip size,
    material := py_strip material, comment := py_strip comment,
    offer_id := offer_id,
    price_work := price_work, price_material := price_material,
    price_other := price_other,
    price_total := price_work + price_material + price_other }

/-- The deterministic template of `generate_offer_text` (app.py 647-684),
returned when no AI credential is configured or the client library is
unavailable; the f-string with a final `.strip()` removing the trailing
newline. -/
def fallback_offer_text (d : OfferData) : String :=
  "# Offert för " ++ d.job_type
  ++ "\n\n**Offert-ID:** " ++ d.offer_id
  ++ "  \n**Datum:** " ++ d.date
  ++ "  \n**Företag:** " ++ d.company
  ++ "  \n**Kontakt:** " ++ d.contact
  ++ "  \n**Kund:** " ++ d.customer
  ++ "  \n**Plats/ort:** " ++ d.location
  ++ "\n\n## Projektbeskrivning\nVi lämnar härmed offert för **" ++ d.job_type
  ++ "** enligt angivna uppgifter.\n\n## Arbetsmoment\n- Genomgång och planering\n- Utförande enligt överenskommelse\n- Avstämning och slutbesiktning\n\n## Material\n- "
  ++ (if d.material = "" then "Enligt överenskommelse" else d.material)
  ++ "\n\n## Tidsplan\nStartdatum: enligt överenskommelse.\n\n## Pris\n- Arbete: " ++ toString d.price_work
  ++ " SEK  \n- Material: " ++ toString d.price_material
  ++ " SEK  \n- Övrigt: " ++ toString d.price_other
  ++ " SEK  \n**Totalpris inkl. moms:** " ++ toString d.price_total
  ++ " SEK\n\n## Villkor\n1. Offerten gäller i 30 dagar.\n2. Betalningsvillkor: 30 dagar.\n3. Tilläggsarbete debiteras enligt överenskommelse.\n4. Startdatum enligt överenskommelse.\n\n## Kontakt\n"
  ++ d.company ++ " – " ++ d.contact

/-- Model of `generate_offer_text` (app.py 644-697): fall back to the deterministic
template when `OPENAI_API_KEY` is absent/empty or the `openai` import
failed, otherwise delegate to the AI capability `ai`. -/
def generate_offer_text (api_key : Option String) (openai_available : Bool)
    (ai : OfferData → String) (d : OfferData) : String :=
  if truthy api_key = none ∨ openai_available = false then fallback_offer_text d
  else ai d

/-- Substring containment, the property language for the template text. -/
def str_contains (hay needle : String) : Prop := ∃ a b, hay = a ++ needle ++ b

/-! ### Shared helper lemmas -/

lemma coalesce_idem (x y : Option String) : coalesce x (coalesce x y) = coalesce x y := by
  cases x <;> rfl

lemma apply_subscription_update_id (u : User) (c s st p : Option String) :
    (apply_subscription_update u c s st p).id = u.id := rfl

lemma apply_subscription_update_email (u : User) (c s st p : Option String) :
    (apply_subscription_update u c s st p).email = u.email := rfl

/-- Per-row frame property of the COALESCE upsert: an absent argument
leaves its column exactly as it was. -/
lemma apply_subscription_update_frame (u : User) (c s st p : Option String) :
    (c = none → (apply_subscription_update u c s st p).stripe_customer_id = u.stripe_customer_id)
    ∧ (s = none → (apply_subscription_update u c s st p).stripe_subscription_id = u.stripe_subscription_id)
    ∧ (st = none → (apply_subscription_update u c s st p).stripe_subscription_status = u.stripe_subscription_status)
    ∧ (p = none → (apply_subscription_update u c s st p).plan = u.plan) := by
  refine ⟨?_, ?_, ?_, ?_⟩ <;> rintro rfl <;> rfl

lemma update_user_subscription_getElem? (users : List User) (uid : Nat)
    (c s st p : Option String) (i : Nat) :
    (update_user_subscription users uid c s st p)[i]? =
      users[i]?.map (fun u =>
        if u.id == uid then apply_subscription_update u c s st p else u) := by
  simp [update_user_subscription, List.getElem?_map]

lemma update_user_subscription_length (users : List User) (uid : Nat)
    (c s st p : Option String) :
    (update_user_subscription users uid c s st p).length = users.length := by
  simp [update_user_subscription]

/-! ### C1: absent upsert fields are retained -/

/-- C1: for every row of the users table and every call to
`update_user_subscription`, each of the four billing fields that is passed
as `None` keeps exactly its prior value; in particular an upsert supplying
only the status leaves external customer ref, external subscription ref
and plan key unchanged. -/
theorem upsert_absent_fields_retained (users : List User) (uid : Nat)
    (c s st p : Option String) (i : Nat) (u u' : User)
    (hu : users[i]? = some u)
    (hu' : (update_user_subscription users uid c s st p)[i]? = some u') :
    (c = none → u'.stripe_customer_id = u.stripe_customer_id)
    ∧ (s = none → u'.stripe_subscription_id = u.stripe_subscription_id)
    ∧ (st = none → u'.stripe_subscription_status = u.stripe_subscription_status)
    ∧ (p = none → u'.plan = u.plan)
    ∧ (c = none → s = none → p = none →
        u'.stripe_customer_id = u.stripe_customer_id
        ∧ u'.stripe_subscription_id = u.stripe_subscription_id
        ∧ u'.plan = u.plan) := by
  rw [update_user_subscription_getElem?, hu, Option.map_some'] at hu'
  have hrow := Option.some.inj hu'
  by_cases hid : u.id == uid
  · rw [if_pos hid] at hrow
    subst hrow
    obtain ⟨h1, h2, h3, h4⟩ := apply_subscription_update_frame u c s st p
    exact ⟨h1, h2, h3, h4, fun hc hs hp => ⟨h1 hc, h2 hs, h4 hp⟩⟩
  · rw [if_neg hid] at hrow
    subst hrow
    exact ⟨fun _ => rfl, fun _ => rfl, fun _ => rfl, fun _ => rfl,
      fun _ _ _ => ⟨rfl, rfl, rfl⟩⟩

/-- Concrete user row used to instantiate witnesses. -/
def wUser : User :=
  ⟨1, "anna@example.se", 1700000000, some "cus_1", some "sub_1", some "active", some "starter"⟩

theorem upsert_absent_fields_retained_witness :
    (([wUser] : List User)[0]? = some wUser)
    ∧ ((update_user_subscription [wUser] 1 none none (some "past_due") none)[0]? =
        some (apply_subscription_update wUser none none (some "past_due") none))
    ∧ (apply_subscription_update wUser none none (some "past_due") none).stripe_customer_id
        = wUser.stripe_customer_id
    ∧ (apply_subscription_update wUser none none (some "past_due") none).plan = wUser.plan := by
  refine ⟨rfl, by decide, ?_, ?_⟩
  · exact (upsert_absent_fields_retained [wUser] 1 none none (some "past_due") none 0
      wUser (apply_subscription_update wUser none none (some "past_due") none)
      rfl (by decide)).1 rfl
  · exact (upsert_absent_fields_retained [wUser] 1 none none (some "past_due") none 0
      wUser (apply_subscription_update wUser none none (some "past_due") none)
      rfl (by decide)).2.2.2.1 rfl

/-! ### C5: the entitlement evaluator -/

lemma has_active_subscription_eq (u : User) :
    has_active_subscription u =
      (py_lower ((u.stripe_subscription_status).getD "") == "active"
        || py_lower ((u.stripe_subscription_status).getD "") == "trialing") := rfl

/-- C5: over the data model's declared status domain (the Stripe status
enumeration, or absent), `has_active_subscription` is true exactly when
the stored status is `active` or `trialing`; every other value, including
an absent status, is not entitled. -/
theorem entitlement_iff_status (u : User)
    (hdom : u.stripe_subscription_status = none ∨
      ∃ v ∈ STATUS_VALUES, u.stripe_subscription_status = some v) :
    (has_active_subscription u = true ↔
      (u.stripe_subscription_status = some "active"
        ∨ u.stripe_subscription_status = some "trialing")) := by
  rcases hdom with h | ⟨v, hv, h⟩
  · rw [has_active_subscription_eq, h]; decide
  · simp only [STATUS_VALUES, List.mem_cons, List.not_mem_nil, or_false] at hv
    rcases hv with rfl | rfl | rfl | rfl | rfl | rfl | rfl <;>
      (rw [has_active_subscription_eq, h]; decide)

theorem entitlement_iff_status_witness :
    ((wUser.stripe_subscription_status = none ∨
        ∃ v ∈ STATUS_VALUES, wUser.stripe_subscription_status = some v)
      ∧ has_active_subscription wUser = true)
    ∧ (∀ u : User, u = { wUser with stripe_subscription_status := some "canceled" } →
        has_active_subscription u = false) := by
  constructor
  · refine ⟨Or.inr ⟨"active", by decide, rfl⟩, ?_⟩
    exact (entitlement_iff_status wUser (Or.inr ⟨"active", by decide, rfl⟩)).2 (Or.inl rfl)
  · rintro u rfl
    have h := entitlement_iff_status { wUser with stripe_subscription_status := some "canceled" }
      (Or.inr ⟨"canceled", by decide, rfl⟩)
    revert h
    decide

/-! ### C10: the webhook gate fails closed -/

/-- C10: when `APP_WEBHOOK_TOKEN` is unset or empty, `verify_webhook_gate`
returns false for every supplied token (the empty token included), so the
webhook handler refuses every request without touching any state. -/
theorem webhook_gate_fails_closed (token : String) (expected : Option String)
    (h : expected = none ∨ expected = some "") :
    verify_webhook_gate token expected = false
    ∧ ∀ (users : List User) (sub_param session_param : String)
        (session_subscription sub_status sub_customer customer_email sub_price_id : Option String)
        (price_of : String → Option String),
        webhook_handler users true token expected sub_param session_param
          session_subscription sub_status sub_customer customer_email sub_price_id price_of
          = (.gate_refused, users) := by
  have hgate : verify_webhook_gate token expected = false := by
    rcases h with rfl | rfl <;> rfl
  refine ⟨hgate, ?_⟩
  intro users sub_param session_param ssub sst scust cem spid price_of
  simp [webhook_handler, hgate]

theorem webhook_gate_fails_closed_witness :
    ((some "" : Option String) = none ∨ (some "" : Option String) = some "")
    ∧ verify_webhook_gate "" (some "") = false
    ∧ webhook_handler [wUser] true "" (some "") "sub_1" ""
        none (some "active") (some "cus_1") (some "anna@example.se") none
        (fun _ => none)
      = (.gate_refused, [wUser]) := by
  refine ⟨Or.inr rfl, ?_, ?_⟩
  · exact (webhook_gate_fails_closed "" (some "") (Or.inr rfl)).1
  · exact (webhook_gate_fails_closed "" (some "") (Or.inr rfl)).2
      [wUser] "sub_1" "" none (some "active") (some "cus_1") (some "anna@example.se") none
      (fun _ => none)

/-! ### C6: the return-callback verifier is idempotent -/

lemma apply_subscription_update_idem (u : User) (c s st p : Option String) :
    apply_subscription_update (apply_subscription_update u c s st p) c s st p =
      apply_subscription_update u c s st p := by
  simp [apply_subscription_update, coalesce_idem]

lemma update_user_subscription_idem (users : List User) (uid : Nat)
    (c s st p : Option String) :
    update_user_subscription (update_user_subscription users uid c s st p) uid c s st p =
      update_user_subscription users uid c s st p := by
  simp only [update_user_subscription, List.map_map]
  congr 1
  funext u
  simp only [Function.comp_apply]
  by_cases hid : (u.id == uid) = true
  · rw [if_pos hid]
    have hid' : ((apply_subscription_update u c s st p).id == uid) = true := by
      rw [apply_subscription_update_id]; exact hid
    rw [if_pos hid', apply_subscription_update_idem]
  · rw [if_neg hid, if_neg hid]

lemma update_user_subscription_id_email (users : List User) (uid : Nat)
    (c s st p : Option String) (i : Nat) :
    ((update_user_subscription users uid c s st p)[i]?).map (fun u => (u.id, u.email))
      = (users[i]?).map (fun u => (u.id, u.email)) := by
  rw [update_user_subscription_getElem?]
  cases h : users[i]? with
  | none => rfl
  | some u =>
    simp only [Option.map_some']
    by_cases hid : (u.id == uid) = true
    · rw [if_pos hid, apply_subscription_update_id, apply_subscription_update_email]
    · rw [if_neg hid]

lemma handle_callback_eq_users (uid : Nat) (stripe_ok : Bool)
    (success session_id : Option String) (provider_ok : Bool)
    (sess : CheckoutSession) (sub_status : Option String)
    (h : stripe_ok = false ∨ (truthy success = none ∨ truthy session_id = none)
          ∨ provider_ok = false)
    (users : List User) :
    handle_stripe_success_callback users uid stripe_ok success session_id
      provider_ok sess sub_status = users := by
  unfold handle_stripe_success_callback
  rcases h with h | h | h
  · subst h; rfl
  · cases stripe_ok with
    | false => rfl
    | true => rw [if_neg (by simp), if_pos h]
  · subst h
    cases stripe_ok with
    | false => rfl
    | true =>
      by_cases h2 : truthy success = none ∨ truthy session_id = none
      · rw [if_neg (by simp), if_pos h2]
      · rw [if_neg (by simp), if_neg h2]; rfl

lemma handle_callback_eq_update (users : List User) (uid : Nat)
    (success session_id : Option String)
    (sess : CheckoutSession) (sub_status : Option String)
    (h2 : ¬ (truthy success = none ∨ truthy session_id = none)) :
    handle_stripe_success_callback users uid true success session_id true sess sub_status
      = update_user_subscription users uid (truthy sess.customer) (truthy sess.subscription)
          (match truthy sess.subscription with
            | some _ => some (py_lower (sub_status.getD ""))
            | none => none)
          sess.plan_key := by
  unfold handle_stripe_success_callback
  rw [if_neg (by simp), if_neg h2, if_neg (by simp)]

/-- C6: invoking the success-callback verifier twice with the same session
reference (the provider returning the same canonical session and
subscription both times) produces the same users table as invoking it
once; no user row is created or deleted, and every row keeps its identity
(id and email), so there are no duplicate side effects. -/
theorem success_callback_idempotent (users : List User) (uid : Nat)
    (stripe_ok : Bool) (success session_id : Option String) (provider_ok : Bool)
    (sess : CheckoutSession) (sub_status : Option String) :
    handle_stripe_success_callback
        (handle_stripe_success_callback users uid stripe_ok success session_id
          provider_ok sess sub_status)
        uid stripe_ok success session_id provider_ok sess sub_status
      = handle_stripe_success_callback users uid stripe_ok success session_id
          provider_ok sess sub_status
    ∧ (handle_stripe_success_callback users uid stripe_ok success session_id
        provider_ok sess sub_status).length = users.length
    ∧ ∀ i : Nat, ((handle_stripe_success_callback users uid stripe_ok success session_id
          provider_ok sess sub_status)[i]?).map (fun u : User => (u.id, u.email))
        = (users[i]?).map (fun u : User => (u.id, u.email)) := by
  by_cases hb : stripe_ok = true
      ∧ ¬ (truthy success = none ∨ truthy session_id = none) ∧ provider_ok = true
  · obtain ⟨h1, h2, h3⟩ := hb
    subst h1; subst h3
    rw [handle_callback_eq_update users uid success session_id sess sub_status h2,
        handle_callback_eq_update _ uid success session_id sess sub_status h2]
    exact ⟨update_user_subscription_idem users uid _ _ _ _,
      update_user_subscription_length users uid _ _ _ _,
      fun i => update_user_subscription_id_email users uid _ _ _ _ i⟩
  · have h : stripe_ok = false ∨ (truthy success = none ∨ truthy session_id = none)
        ∨ provider_ok = false := by
      by_cases a : stripe_ok = true
      · by_cases b : truthy success = none ∨ truthy session_id = none
        · exact Or.inr (Or.inl b)
        · by_cases c : provider_ok = true
          · exact absurd ⟨a, b, c⟩ hb
          · exact Or.inr (Or.inr (by revert c; cases provider_ok <;> simp))
      · exact Or.inl (by revert a; cases stripe_ok <;> simp)
    simp only [handle_callback_eq_users uid stripe_ok success session_id provider_ok
      sess sub_status h]
    exact ⟨trivial, trivial, fun i => trivial⟩

/-! ### C7: identity mismatch in the notification handler -/

/-- C7: when the provider customer email resolved by the webhook matches
no local account under exact normalized comparison, the handler stops in
its user-not-found branch (the IdentityNotFoundError) and the users table
is returned exactly as it was: no record is mutated, so the update cannot
be attributed to another account. -/
theorem webhook_identity_not_found (users : List User)
    (token : String) (expected_token : Option String)
    (sub_param session_param : String)
    (session_subscription sub_status sub_customer customer_email sub_price_id : Option String)
    (price_of : String → Option String)
    (hgate : verify_webhook_gate token expected_token = true)
    (hsub : webhook_subscription_id sub_param session_param session_subscription ≠ "")
    (hmatch : get_user_by_email users (normalize_email (customer_email.getD "")) = none) :
    webhook_handler users true token expected_token sub_param session_param
        session_subscription sub_status sub_customer customer_email sub_price_id price_of
      = (.user_not_found, users) := by
  by_cases hemail : normalize_email (customer_email.getD "") = ""
  · simp [webhook_handler, hgate, hsub, hemail]
  · simp [webhook_handler, hgate, hsub, hemail, hmatch]

theorem webhook_identity_not_found_witness :
    verify_webhook_gate "tok" (some "tok") = true
    ∧ webhook_subscription_id "sub_9" "" none ≠ ""
    ∧ get_user_by_email [wUser] (normalize_email ((some "bob@example.se").getD "")) = none
    ∧ webhook_handler [wUser] true "tok" (some "tok") "sub_9" ""
        none (some "active") (some "cus_9") (some "bob@example.se") none (fun _ => none)
      = (.user_not_found, [wUser]) := by
  refine ⟨by decide, by decide, by decide, ?_⟩
  exact webhook_identity_not_found [wUser] "tok" (some "tok") "sub_9" ""
    none (some "active") (some "cus_9") (some "bob@example.se") none (fun _ => none)
    (by decide) (by decide) (by decide)

/-! ### C8: reconciliation sync frame effect -/

/-- C8: `sync_subscription_from_stripe` is a no-op for a user without a
stored subscription reference; when the provider call fails the error is
swallowed and the whole prior cached state is retained; when it succeeds
the call upserts only the status field, so every row's customer ref,
subscription ref and plan key (and id and email) are unchanged. -/
theorem sync_updates_only_status (users : List User) (u : User) (stripe_ok : Bool)
    (fetch_status : String → Option (Option String)) :
    (truthy u.stripe_subscription_id = none →
      sync_subscription_from_stripe users u stripe_ok fetch_status = users)
    ∧ (∀ sid, truthy u.stripe_subscription_id = some sid → fetch_status sid = none →
      sync_subscription_from_stripe users u stripe_ok fetch_status = users)
    ∧ (∀ sid s, truthy u.stripe_subscription_id = some sid → fetch_status sid = some s →
        stripe_ok = true →
        sync_subscription_from_stripe users u stripe_ok fetch_status
          = update_user_subscription users u.id none none (some (py_lower (s.getD ""))) none
        ∧ ∀ (i : Nat) (v w : User), users[i]? = some v →
            (sync_subscription_from_stripe users u stripe_ok fetch_status)[i]? = some w →
            w.stripe_customer_id = v.stripe_customer_id
            ∧ w.stripe_subscription_id = v.stripe_subscription_id
            ∧ w.plan = v.plan
            ∧ w.id = v.id ∧ w.email = v.email) := by
  refine ⟨?_, ?_, ?_⟩
  · intro hnone
    unfold sync_subscription_from_stripe
    rw [hnone]
    split_ifs <;> rfl
  · intro sid hsid hfail
    unfold sync_subscription_from_stripe
    rw [hsid]
    split_ifs with h
    all_goals first
      | rfl
      | (show (match fetch_status sid with
            | none => users
            | some st =>
              update_user_subscription users u.id none none (some (py_lower (st.getD ""))) none)
            = users
         rw [hfail])
  · intro sid s hsid hfetch hok
    subst hok
    have heq : sync_subscription_from_stripe users u true fetch_status
        = update_user_subscription users u.id none none (some (py_lower (s.getD ""))) none := by
      unfold sync_subscription_from_stripe
      rw [hsid, if_neg (by simp)]
      show (match fetch_status sid with
          | none => users
          | some st =>
            update_user_subscription users u.id none none (some (py_lower (st.getD ""))) none)
          = update_user_subscription users u.id none none (some (py_lower (s.getD ""))) none
      rw [hfetch]
    refine ⟨heq, ?_⟩
    intro i v w hv hw
    rw [heq, update_user_subscription_getElem?, hv, Option.map_some'] at hw
    have hrow := Option.some.inj hw
    by_cases hid : v.id == u.id
    · rw [if_pos hid] at hrow
      subst hrow
      obtain ⟨h1, h2, _, h4⟩ :=
        apply_subscription_update_frame v none none (some (py_lower (s.getD ""))) none
      exact ⟨h1 rfl, h2 rfl, h4 rfl,
        apply_subscription_update_id v _ _ _ _, apply_subscription_update_email v _ _ _ _⟩
    · rw [if_neg hid] at hrow
      subst hrow
      exact ⟨rfl, rfl, rfl, rfl, rfl⟩

theorem sync_updates_only_status_witness :
    truthy wUser.stripe_subscription_id = some "sub_1"
    ∧ ((fun _ => some (some "past_due") : String → Option (Option String)) "sub_1"
        = some (some "past_due"))
    ∧ sync_subscription_from_stripe [wUser] wUser true (fun _ => some (some "past_due"))
        = update_user_subscription [wUser] wUser.id none none
            (some (py_lower ((some "past_due" : Option String).getD ""))) none
    ∧ ∀ w : User, (sync_subscription_from_stripe [wUser] wUser true
          (fun _ => some (some "past_due")))[0]? = some w →
        w.stripe_customer_id = wUser.stripe_customer_id ∧ w.plan = wUser.plan := by
  refine ⟨rfl, rfl, ?_, ?_⟩
  · exact ((sync_updates_only_status [wUser] wUser true (fun _ => some (some "past_due"))).2.2
      "sub_1" (some "past_due") rfl rfl rfl).1
  · intro w hw
    have h := ((sync_updates_only_status [wUser] wUser true
        (fun _ => some (some "past_due"))).2.2 "sub_1" (some "past_due") rfl rfl rfl).2
      0 wUser w rfl hw
    exact ⟨h.1, h.2.2.1⟩

/-! ### C3 and C4: quota counting -/

lemma count_offers_append_singleton (offers : List Offer) (uid now : Nat) (o : Offer) :
    count_offers_current_month (offers ++ [o]) uid now =
      count_offers_current_month offers uid now +
        (if o.user_id == uid && decide (month_start_ts now ≤ o.created_at) then 1 else 0) := by
  simp only [count_offers_current_month]
  rw [List.filter_append, List.length_append, List.filter_singleton]
  cases h : (o.user_id == uid && decide (month_start_ts now ≤ o.created_at)) <;> simp

lemma count_offers_congr_month (offers : List Offer) (uid : Nat) (n1 n2 : Nat)
    (h : month_start_ts n1 = month_start_ts n2) :
    count_offers_current_month offers uid n1 = count_offers_current_month offers uid n2 := by
  simp only [count_offers_current_month]
  rw [h]

/-- C4: the quota window of `count_offers_current_month` starts exactly at
the first instant of the current calendar month (UTC): a ledger row whose
timestamp is the last instant before the month start is excluded from that
month's count; a row stamped exactly at the month start is included and
contributes exactly one; and while the clock is still in the previous
month (`nowM` before the boundary) a row stamped at the boundary cannot
exist in a ledger whose rows were all created at or before `nowM`, so it
is counted only in the new month. -/
theorem month_boundary_count (offers : List Offer) (uid : Nat) (nowM1 nowM : Nat)
    (hM : nowM < month_start_ts nowM1) :
    (∀ o : Offer, o.created_at + 1 = month_start_ts nowM1 →
        count_offers_current_month (offers ++ [o]) uid nowM1 =
          count_offers_current_month offers uid nowM1)
    ∧ (∀ o : Offer, o.user_id = uid → o.created_at = month_start_ts nowM1 →
        count_offers_current_month (offers ++ [o]) uid nowM1 =
          count_offers_current_month offers uid nowM1 + 1)
    ∧ (∀ o : Offer, o.created_at = month_start_ts nowM1 →
        (∀ p ∈ offers, p.created_at ≤ nowM) → o ∉ offers) := by
  refine ⟨?_, ?_, ?_⟩
  · intro o h
    rw [count_offers_append_singleton, if_neg, Nat.add_zero]
    simp only [Bool.and_eq_true, decide_eq_true_eq, not_and]
    intro _
    omega
  · intro o hu h
    rw [count_offers_append_singleton, if_pos]
    simp only [Bool.and_eq_true, decide_eq_true_eq, beq_iff_eq]
    exact ⟨hu, by omega⟩
  · intro o h hreal hmem
    have := hreal o hmem
    omega

theorem month_boundary_count_witness :
    (1767225600 < month_start_ts 1769990400)
    ∧ month_start_ts 1769990400 = 1769904000
    ∧ (∀ o : Offer, o.created_at = month_start_ts 1769990400 →
        (∀ p ∈ ([] : List Offer), p.created_at ≤ 1767225600) → o ∉ ([] : List Offer)) := by
  refine ⟨by decide, by decide, ?_⟩
  exact (month_boundary_count [] 1 1769990400 1767225600 (by decide)).2.2

/-- C3: for a user on a plan with monthly limit 50 whose ledger holds
exactly 49 current-month rows, the next metered action is authorized and
appends exactly one row (the count becomes 50); a further metered action
in the same month is rejected (the quota error) and appends nothing. -/
theorem quota_boundary_49_50 (offers : List Offer) (u : User) (now now2 : Nat)
    (o o2 : Offer)
    (hlimit : plan_limit u.plan = 50)
    (hcount : count_offers_current_month offers u.id now = 49)
    (houser : o.user_id = u.id) (hot : o.created_at = now)
    (hnow : month_start_ts now ≤ now)
    (hmonth : month_start_ts now2 = month_start_ts now) :
    generator_submit offers u.id u.plan now o = (true, offers ++ [o])
    ∧ count_offers_current_month (offers ++ [o]) u.id now = 50
    ∧ generator_submit (offers ++ [o]) u.id u.plan now2 o2 = (false, offers ++ [o]) := by
  have hc50 : count_offers_current_month (offers ++ [o]) u.id now = 50 := by
    rw [count_offers_append_singleton, hcount, if_pos]
    simp only [Bool.and_eq_true, decide_eq_true_eq, beq_iff_eq]
    exact ⟨houser, by omega⟩
  refine ⟨?_, hc50, ?_⟩
  · simp only [generator_submit]
    rw [hlimit, hcount, if_neg (by omega)]
    rfl
  · simp only [generator_submit]
    rw [hlimit, count_offers_congr_month (offers ++ [o]) u.id now2 now hmonth, hc50,
      if_pos (by omega)]

/-- Concrete ledger row used by quota witnesses: a usage record created at
the first instant of 2026-02 (UTC). -/
def wOffer : Offer :=
  ⟨1, "OFF-ABCD1234", 1769904000, "Altanbygge", "Kund Kundsson", "Umeå", 45000, "offer text"⟩

/-- 49 current-month ledger rows for user 1. -/
def wLedger : List Offer := List.replicate 49 wOffer

theorem quota_boundary_49_50_witness :
    plan_limit wUser.plan = 50
    ∧ count_offers_current_month wLedger wUser.id 1769904000 = 49
    ∧ month_start_ts 1769904000 ≤ 1769904000
    ∧ month_start_ts 1769990400 = month_start_ts 1769904000
    ∧ generator_submit wLedger wUser.id wUser.plan 1769904000 wOffer
        = (true, wLedger ++ [wOffer])
    ∧ generator_submit (wLedger ++ [wOffer]) wUser.id wUser.plan 1769990400 wOffer
        = (false, wLedger ++ [wOffer]) := by
  have h := quota_boundary_49_50 wLedger wUser 1769904000 1769990400 wOffer wOffer
    (by decide) (by decide) (by decide) (by decide) (by decide) (by decide)
  exact ⟨by decide, by decide, by decide, by decide, h.1, h.2.2⟩

/-! ### C2: the check-then-insert quota race -/

/-- C2: the count-read, compare and insert of the metered action are three
separate SQLite statements with no transaction or per-user serialization,
so the claimed "exactly one success at limit − 1" fails: with two
concurrent requests for user 1 at 49 of 50 used, the interleaving
read/read/check/check/insert/insert lets both requests observe the stale
count 49, both pass the check, and both append a ledger row — two
successes and a final count of 51 against a limit of 50. -/
theorem quota_race_two_successes :
    (gen_run 1 50 1769904000 (fun _ => wOffer) ⟨wLedger, [.rendering, .rendering]⟩
        [0, 1, 0, 1, 0, 1]).reqs = [.inserted 49, .inserted 49]
    ∧ (gen_run 1 50 1769904000 (fun _ => wOffer) ⟨wLedger, [.rendering, .rendering]⟩
        [0, 1, 0, 1, 0, 1]).offers.length = 51
    ∧ count_offers_current_month (gen_run 1 50 1769904000 (fun _ => wOffer)
        ⟨wLedger, [.rendering, .rendering]⟩ [0, 1, 0, 1, 0, 1]).offers 1 1769904000 = 51
    ∧ plan_limit (some "starter") = 50
    ∧ count_offers_current_month wLedger 1 1769904000 = 49 := by
  decide

/-! ### C9: the deterministic fallback template -/

lemma str_contains_append_left (a : String) {hay needle : String}
    (h : str_contains hay needle) : str_contains (a ++ hay) needle := by
  obtain ⟨x, y, rfl⟩ := h
  exact ⟨a ++ x, y, by simp [String.append_assoc]⟩

lemma str_contains_append_right (b : String) {hay needle : String}
    (h : str_contains hay needle) : str_contains (hay ++ b) needle := by
  obtain ⟨x, y, rfl⟩ := h
  exact ⟨x, y ++ b, by simp [String.append_assoc]⟩

lemma str_contains_mid (P x y z w t : String) :
    str_contains (((P ++ (x ++ y)) ++ t) ++ (z ++ w)) (y ++ t ++ z) := by
  refine ⟨P ++ x, w, ?_⟩
  simp [String.append_assoc]

lemma fallback_contains_sections (d : OfferData) :
    str_contains (fallback_offer_text d) "## Projektbeskrivning"
    ∧ str_contains (fallback_offer_text d) "## Arbetsmoment"
    ∧ str_contains (fallback_offer_text d) "## Material"
    ∧ str_contains (fallback_offer_text d) "## Tidsplan"
    ∧ str_contains (fallback_offer_text d) "## Pris"
    ∧ str_contains (fallback_offer_text d) "## Villkor"
    ∧ str_contains (fallback_offer_text d) "## Kontakt"
    ∧ str_contains (fallback_offer_text d)
        ("**Totalpris inkl. moms:** " ++ toString d.price_total ++ " SEK") := by
  simp only [fallback_offer_text]
  refine ⟨?_, ?_, ?_, ?_, ?_, ?_, ?_, ?_⟩
  · iterate 15 apply str_contains_append_right
    apply str_contains_append_left
    exact ⟨"\n\n", "\nVi lämnar härmed offert för **", rfl⟩
  · iterate 13 apply str_contains_append_right
    apply str_contains_append_left
    exact ⟨"** enligt angivna uppgifter.\n\n",
      "\n- Genomgång och planering\n- Utförande enligt överenskommelse\n- Avstämning och slutbesiktning\n\n## Material\n- ",
      rfl⟩
  · iterate 13 apply str_contains_append_right
    apply str_contains_append_left
    exact ⟨"** enligt angivna uppgifter.\n\n## Arbetsmoment\n- Genomgång och planering\n- Utförande enligt överenskommelse\n- Avstämning och slutbesiktning\n\n",
      "\n- ", rfl⟩
  · iterate 11 apply str_contains_append_right
    apply str_contains_append_left
    exact ⟨"\n\n", "\nStartdatum: enligt överenskommelse.\n\n## Pris\n- Arbete: ", rfl⟩
  · iterate 11 apply str_contains_append_right
    apply str_contains_append_left
    exact ⟨"\n\n## Tidsplan\nStartdatum: enligt överenskommelse.\n\n", "\n- Arbete: ", rfl⟩
  · iterate 3 apply str_contains_append_right
    apply str_contains_append_left
    exact ⟨" SEK\n\n",
      "\n1. Offerten gäller i 30 dagar.\n2. Betalningsvillkor: 30 dagar.\n3. Tilläggsarbete debiteras enligt överenskommelse.\n4. Startdatum enligt överenskommelse.\n\n## Kontakt\n",
      rfl⟩
  · iterate 3 apply str_contains_append_right
    apply str_contains_append_left
    exact ⟨" SEK\n\n## Villkor\n1. Offerten gäller i 30 dagar.\n2. Betalningsvillkor: 30 dagar.\n3. Tilläggsarbete debiteras enligt överenskommelse.\n4. Startdatum enligt överenskommelse.\n\n",
      "\n", rfl⟩
  · iterate 3 apply str_contains_append_right
    rw [show (" SEK  \n**Totalpris inkl. moms:** " : String)
          = " SEK  \n" ++ "**Totalpris inkl. moms:** " from rfl,
        show (" SEK\n\n## Villkor\n1. Offerten gäller i 30 dagar.\n2. Betalningsvillkor: 30 dagar.\n3. Tilläggsarbete debiteras enligt överenskommelse.\n4. Startdatum enligt överenskommelse.\n\n## Kontakt\n" : String)
          = " SEK" ++ "\n\n## Villkor\n1. Offerten gäller i 30 dagar.\n2. Betalningsvillkor: 30 dagar.\n3. Tilläggsarbete debiteras enligt överenskommelse.\n4. Startdatum enligt överenskommelse.\n\n## Kontakt\n" from rfl]
    exact str_contains_mid _ " SEK  \n" "**Totalpris inkl. moms:** " " SEK" _ _

/-- C9: when no AI credential is configured or the client library is
unavailable, offer-text generation returns the deterministic template; the
output contains all seven section headings (Projektbeskrivning,
Arbetsmoment, Material, Tidsplan, Pris, Villkor, Kontakt), and the total
price it states is exactly the integer sum of the three supplied price
components, as assembled by the generator UI. -/
theorem fallback_sections_and_exact_total
    (api_key : Option String) (avail : Bool) (ai : OfferData → String)
    (company contact date customer location job_type size material comment offer_id : String)
    (pw pm po : Nat)
    (hfb : truthy api_key = none ∨ avail = false) :
    ∀ d : OfferData,
      d = mk_offer_data company contact date customer location job_type size material
            comment offer_id pw pm po →
      generate_offer_text api_key avail ai d = fallback_offer_text d
      ∧ str_contains (generate_offer_text api_key avail ai d) "## Projektbeskrivning"
      ∧ str_contains (generate_offer_text api_key avail ai d) "## Arbetsmoment"
      ∧ str_contains (generate_offer_text api_key avail ai d) "## Material"
      ∧ str_contains (generate_offer_text api_key avail ai d) "## Tidsplan"
      ∧ str_contains (generate_offer_text api_key avail ai d) "## Pris"
      ∧ str_contains (generate_offer_text api_key avail ai d) "## Villkor"
      ∧ str_contains (generate_offer_text api_key avail ai d) "## Kontakt"
      ∧ str_contains (generate_offer_text api_key avail ai d)
          ("**Totalpris inkl. moms:** " ++ toString (pw + pm + po) ++ " SEK") := by
  rintro d rfl
  have hout : generate_offer_text api_key avail ai
      (mk_offer_data company contact date customer location job_type size material
        comment offer_id pw pm po)
      = fallback_offer_text (mk_offer_data company contact date customer location job_type
          size material comment offer_id pw pm po) := by
    unfold generate_offer_text
    rw [if_pos hfb]
  obtain ⟨h1, h2, h3, h4, h5, h6, h7, h8⟩ := fallback_contains_sections
    (mk_offer_data company contact date customer location job_type size material
      comment offer_id pw pm po)
  rw [hout]
  exact ⟨rfl, h1, h2, h3, h4, h5, h6, h7, h8⟩

theorem fallback_sections_and_exact_total_witness :
    (truthy (none : Option String) = none ∨ true = false)
    ∧ str_contains
        (generate_offer_text none true (fun _ => "")
          (mk_offer_data "Firma AB" "070-123" "2026-02-01" "Kund" "Umeå" "Altanbygge"
            "25 kvm" "trall" "" "OFF-1" 1000 2000 300))
        ("**Totalpris inkl. moms:** " ++ toString (1000 + 2000 + 300) ++ " SEK") := by
  refine ⟨Or.inl rfl, ?_⟩
  exact (fallback_sections_and_exact_total none true (fun _ => "")
    "Firma AB" "070-123" "2026-02-01" "Kund" "Umeå" "Altanbygge" "25 kvm" "trall" "" "OFF-1"
    1000 2000 300 (Or.inl rfl) _ rfl).2.2.2.2.2.2.2.2

end Offertly
